import Mathlib

/-!
Verification of the mloda execution-engine core against its specification.

The Python sources are shallowly embedded: pure methods become Lean functions,
stateful methods become explicit state passing, fallible methods return
`Except`.  Python `uuid.UUID` values are modelled as `Nat`, Python sets as
`Finset`.  Components of the repository whose source files are not available
(Index, Link, JoinType, the FlightServer exchange service, CfwManager) are
modelled from the specification and marked as such.
-/

set_option autoImplicit false
set_option linter.unusedVariables false

namespace Mloda

/-- Modelled from the spec: `JoinType` (mloda_core/abstract_plugins/components/link.py,
whose source is not available here) declares the four join types
inner, left, right, full-outer. -/
inductive JoinType where
  | INNER
  | LEFT
  | RIGHT
  | OUTER
deriving DecidableEq, Repr

/-- Modelled from the spec: `Index` (mloda_core/abstract_plugins/components/index/index.py,
whose source is not available here) is an ordered tuple of one or more column
names; head/tail encode the "one or more" constraint. -/
structure Index where
  head : String
  tail : List String
deriving DecidableEq, Repr

/-- The full ordered tuple of column names, `self.index` in Python. -/
def Index.index (i : Index) : List String := i.head :: i.tail

/-- Modelled from the spec: `Index.is_multi_index` reports whether the index is
composite (multi-column). -/
def Index.is_multi_index (i : Index) : Bool := 1 < i.index.length

/-- A cell value of a tabular dataset: SQL-style null, an integer, or a string. -/
inductive Value where
  | null
  | intV (i : Int)
  | strV (s : String)
deriving DecidableEq, Repr

/-- A row is an association list from column name to cell value. -/
abbrev Row : Type := List (String × Value)

/-- A dataframe is a list of rows. -/
abbrev DataFrame : Type := List Row

/-- A merged row: the pair of contributing input rows.  `none` on one side is
the null padding an outer join produces for an unmatched row. -/
abbrev JRow : Type := Option Row × Option Row

/-- Column lookup in a row. -/
def lookupCol (r : Row) (c : String) : Option Value := List.lookup c r

/-- Two rows match on the given key columns when both key cells are present,
equal, and not null (SQL null never compares equal). -/
def keyMatch (lc rc : String) (l r : Row) : Bool :=
  match lookupCol l lc, lookupCol r rc with
  | some v, some w => decide (v = w ∧ v ≠ Value.null)
  | _, _ => false

/-- Modelled from the pandas library (an external collaborator of the repository):
inner join, pairing every left row with every matching right row, in
left-major order as `pd.merge(..., how="inner", sort=False)` produces it. -/
def innerRows (lc rc : String) (L R : DataFrame) : List JRow :=
  L.flatMap fun l => (R.filter fun r => keyMatch lc rc l r).map fun r => (some l, some r)

/-- Modelled from the pandas library: left-outer join; an unmatched left row is
kept once, padded with null on the right side. -/
def leftRows (lc rc : String) (L R : DataFrame) : List JRow :=
  L.flatMap fun l =>
    if (R.filter fun r => keyMatch lc rc l r).isEmpty then [(some l, none)]
    else (R.filter fun r => keyMatch lc rc l r).map fun r => (some l, some r)

/-- Modelled from the pandas library: right-outer join; an unmatched right row
is kept once, padded with null on the left side. -/
def rightRows (lc rc : String) (L R : DataFrame) : List JRow :=
  R.flatMap fun r =>
    if (L.filter fun l => keyMatch lc rc l r).isEmpty then [(none, some r)]
    else (L.filter fun l => keyMatch lc rc l r).map fun l => (some l, some r)

/-- Modelled from the pandas library: full-outer join with `sort=False`
ordering — the left-join rows followed by the unmatched right rows. -/
def outerRows (lc rc : String) (L R : DataFrame) : List JRow :=
  leftRows lc rc L R ++
    ((R.filter fun r => L.all fun l => !keyMatch lc rc l r).map
      fun r => ((none : Option Row), some r))

/-- Modelled from the pandas library: `pd.merge(left, right, left_on, right_on, how)`
restricted to single key columns, the only case the repository exercises. -/
def pd_merge (how : JoinType) (L R : DataFrame) (lc rc : String) : List JRow :=
  match how with
  | .INNER => innerRows lc rc L R
  | .LEFT => leftRows lc rc L R
  | .RIGHT => rightRows lc rc L R
  | .OUTER => outerRows lc rc L R

/-- `PandasMergeEngine.merge_logic` (pandas_merge_engine.py, lines 26-35):
reject composite indices, then delegate to `pd.merge` on the first (only)
column of each index.  The Python method receives the join type both as the
pandas `how` string and as the `JoinType`; the embedding keeps one copy. -/
def PandasMergeEngine.merge_logic (join_type : JoinType) (left_data right_data : DataFrame)
    (left_index right_index : Index) : Except String (List JRow) :=
  if left_index.is_multi_index || right_index.is_multi_index then
    Except.error "MultiIndex is not yet implemented PandasMergeEngine"
  else
    Except.ok (pd_merge join_type left_data right_data
      left_index.index.headI right_index.index.headI)

/-- The four merge verbs a concrete merge engine supplies
(base_merge_engine.py declares them as overridable methods). -/
structure MergeEngineImpl where
  merge_inner : DataFrame → DataFrame → Index → Index → Except String (List JRow)
  merge_left : DataFrame → DataFrame → Index → Index → Except String (List JRow)
  merge_right : DataFrame → DataFrame → Index → Index → Except String (List JRow)
  merge_full_outer : DataFrame → DataFrame → Index → Index → Except String (List JRow)

/-- `BaseMergeEngine.merge` (base_merge_engine.py, lines 29-40): the fixed,
backend-agnostic dispatcher over the four verbs. -/
def BaseMergeEngine.merge (e : MergeEngineImpl) (left_data right_data : DataFrame)
    (jointype : JoinType) (left_index right_index : Index) : Except String (List JRow) :=
  match jointype with
  | .INNER => e.merge_inner left_data right_data left_index right_index
  | .LEFT => e.merge_left left_data right_data left_index right_index
  | .RIGHT => e.merge_right left_data right_data left_index right_index
  | .OUTER => e.merge_full_outer left_data right_data left_index right_index

/-- `PandasMergeEngine` (pandas_merge_engine.py, lines 13-24): each verb is
`merge_logic` with the corresponding pandas `how`. -/
def pandasMergeEngine : MergeEngineImpl where
  merge_inner := PandasMergeEngine.merge_logic .INNER
  merge_left := PandasMergeEngine.merge_logic .LEFT
  merge_right := PandasMergeEngine.merge_logic .RIGHT
  merge_full_outer := PandasMergeEngine.merge_logic .OUTER

/-- A `PandasMergeEngine().merge(...)` call: the base dispatcher applied to the
pandas verbs. -/
def PandasMergeEngine.merge (left_data right_data : DataFrame) (jointype : JoinType)
    (left_index right_index : Index) : Except String (List JRow) :=
  BaseMergeEngine.merge pandasMergeEngine left_data right_data jointype left_index right_index

/-- SQL inner-join semantics over the row-pair representation: the result holds
exactly the matching pairs of input rows. -/
def sqlInner (lc rc : String) (L R : DataFrame) (res : List JRow) : Prop :=
  ∀ p : JRow, p ∈ res ↔
    ∃ l r, p = (some l, some r) ∧ l ∈ L ∧ r ∈ R ∧ keyMatch lc rc l r = true

/-- SQL left-outer-join semantics: all matching pairs, plus each unmatched left
row padded with null on the right. -/
def sqlLeft (lc rc : String) (L R : DataFrame) (res : List JRow) : Prop :=
  ∀ p : JRow, p ∈ res ↔
    ((∃ l r, p = (some l, some r) ∧ l ∈ L ∧ r ∈ R ∧ keyMatch lc rc l r = true) ∨
      (∃ l, p = (some l, none) ∧ l ∈ L ∧ ∀ r ∈ R, keyMatch lc rc l r = false))

/-- SQL right-outer-join semantics: all matching pairs, plus each unmatched
right row padded with null on the left. -/
def sqlRight (lc rc : String) (L R : DataFrame) (res : List JRow) : Prop :=
  ∀ p : JRow, p ∈ res ↔
    ((∃ l r, p = (some l, some r) ∧ l ∈ L ∧ r ∈ R ∧ keyMatch lc rc l r = true) ∨
      (∃ r, p = (none, some r) ∧ r ∈ R ∧ ∀ l ∈ L, keyMatch lc rc l r = false))

/-- SQL full-outer-join semantics: matching pairs plus unmatched rows of either
side, null-padded on the other side. -/
def sqlOuter (lc rc : String) (L R : DataFrame) (res : List JRow) : Prop :=
  ∀ p : JRow, p ∈ res ↔
    ((∃ l r, p = (some l, some r) ∧ l ∈ L ∧ r ∈ R ∧ keyMatch lc rc l r = true) ∨
      (∃ l, p = (some l, none) ∧ l ∈ L ∧ ∀ r ∈ R, keyMatch lc rc l r = false) ∨
      (∃ r, p = (none, some r) ∧ r ∈ R ∧ ∀ l ∈ L, keyMatch lc rc l r = false))

/-- The SQL join semantics corresponding to each join type. -/
def isSqlJoin (jt : JoinType) (lc rc : String) (L R : DataFrame) (res : List JRow) : Prop :=
  match jt with
  | .INNER => sqlInner lc rc L R res
  | .LEFT => sqlLeft lc rc L R res
  | .RIGHT => sqlRight lc rc L R res
  | .OUTER => sqlOuter lc rc L R res

/-- The simple single-column `idx` index of the spec's worked example. -/
def exIdx : Index := { head := "idx", tail := [] }

/-- A composite (two-column) index, used to exercise the unsupported case. -/
def exCompositeIdx : Index := { head := "idx", tail := ["idx2"] }

/-- Row `(idx=1,col1="a")` of the spec's worked example. -/
def exL1 : Row := [("idx", Value.intV 1), ("col1", Value.strV "a")]

/-- Row `(idx=3,col1="b")` of the spec's worked example. -/
def exL2 : Row := [("idx", Value.intV 3), ("col1", Value.strV "b")]

/-- Row `(idx=1,col2="x")` of the spec's worked example. -/
def exR1 : Row := [("idx", Value.intV 1), ("col2", Value.strV "x")]

/-- Row `(idx=2,col2="z")` of the spec's worked example. -/
def exR2 : Row := [("idx", Value.intV 2), ("col2", Value.strV "z")]

/-- Left table of the spec's worked example: `[(idx=1,col1="a"),(idx=3,col1="b")]`. -/
def exLeft : DataFrame := [exL1, exL2]

/-- Right table of the spec's worked example: `[(idx=1,col2="x"),(idx=2,col2="z")]`. -/
def exRight : DataFrame := [exR1, exR2]

/-- A Python value as the compute-framework layer sees it: `None`, a `str`,
or any other object tagged with its runtime type name and an opaque payload.
Python `isinstance` is modelled as comparison of the runtime type name. -/
inductive PyObj where
  | pynone
  | pystr (s : String)
  | pyobj (ty : String) (payload : Nat)
deriving DecidableEq, Repr

/-- The runtime type name of a Python value, `type(data)` in the source. -/
def PyObj.typeName : PyObj → String
  | .pynone => "NoneType"
  | .pystr _ => "str"
  | .pyobj ty _ => ty

/-- `isinstance(data, ty)` for a concrete type `ty`, modelled as exact runtime
type-name equality (the repository only ever checks against concrete leaf
types such as `pa.Table` or `pd.DataFrame`). -/
def PyObj.isinstanceOf (d : PyObj) (ty : String) : Bool := d.typeName == ty

/-- The result a feature group's `validate_input_features` /
`validate_output_features` returns: Python `None`, Python `True`, or any other
value (modelled with an opaque string payload; this covers `False`, messages,
numbers, ...). -/
inductive VRes where
  | vNone
  | vTrue
  | vOther (v : String)
deriving DecidableEq, Repr

/-- The Python exceptions the embedded code can raise. -/
inductive PyErr where
  | valueError (r : VRes)
  | valueErrorMsg (msg : String)
  | typeError (msg : String)
  | notImplementedError (msg : String)
deriving DecidableEq, Repr

/-- A concrete filter engine as the calculation pipeline uses it:
`final_filters` is `none` when the engine raises `NotImplementedError` there,
and `apply_filters` is the data transformation it performs.  The `features`
argument of the Python `apply_filters` only selects which filters apply; the
embedding folds that into the function. -/
structure FilterEngineM where
  final_filters : Option Bool
  apply_filters : PyObj → PyObj

/-- `ComputeFrameworkTransformMap` (cfw_transformer.py): `transform_map` is the
truthiness of its registered-conversion table and `transform` its conversion,
taking the data together with the source and target type names. -/
structure ComputeFrameworkTransformMap where
  transform_map : Bool
  transform : PyObj → String → String → PyObj

/-- The default-constructed, empty `ComputeFrameworkTransformMap()`. -/
def ComputeFrameworkTransformMap.empty : ComputeFrameworkTransformMap where
  transform_map := false
  transform := fun d _ _ => d

/-- `Feature` (feature identity per the spec: name and options, plus a unique
id).  The options bag is modelled by an opaque identity so that "same shared
options bag" is expressible. -/
structure Feature where
  name : String
  options : Nat
  uuid : Nat
  initial_requested_data : Bool
deriving DecidableEq, Repr

/-- `FeatureSet` (feature_set.py, lines 11-22): the mutable per-pass collection
of features.  `filter_engine` is `some` of the engine bound to the set;
the Python default `BaseFilterEngine` is modelled by
`FeatureSetState.baseFilterEngine` below. -/
structure FeatureSetState where
  features : Finset Feature
  options : Option Nat
  any_uuid : Option Nat
  filters : Option (Finset Nat)
  name_of_one_feature : Option String
  artifact_to_save : Option String
  artifact_to_load : Option String
  filter_engine : Option FilterEngineM

/-- The `BaseFilterEngine` class that `FeatureSet.__init__` installs:
`final_filters` raises `NotImplementedError` (modelled as `none`). -/
def FeatureSetState.baseFilterEngine : FilterEngineM where
  final_filters := none
  apply_filters := id

/-- `FeatureSet.__init__` (feature_set.py, lines 12-22). -/
def FeatureSetState.init : FeatureSetState where
  features := ∅
  options := none
  any_uuid := none
  filters := none
  name_of_one_feature := none
  artifact_to_save := none
  artifact_to_load := none
  filter_engine := some FeatureSetState.baseFilterEngine

/-- `FeatureSet.add` (feature_set.py, lines 35-41): inserts the feature,
unconditionally re-points `name_of_one_feature` at it, and sets `options` /
`any_uuid` only when they are still unset. -/
def FeatureSetState.add (fs : FeatureSetState) (f : Feature) : FeatureSetState :=
  { fs with
    features := insert f fs.features
    name_of_one_feature := some f.name
    options := match fs.options with | some o => some o | none => some f.options
    any_uuid := match fs.any_uuid with | some u => some u | none => some f.uuid }

/-- `FeatureSet.get_all_names` (feature_set.py, lines 49-50). -/
def FeatureSetState.get_all_names (fs : FeatureSetState) : Finset String :=
  fs.features.image fun f => f.name

/-- `ParallelizationModes` (parallelization_modes.py, not under the sources at
hand; the spec names the three modes). -/
inductive ParallelizationModes where
  | SYNC
  | THREADING
  | MULTIPROCESSING
deriving DecidableEq, Repr

/-- The mutable per-instance state of a `ComputeFrameWork`
(compute_frame_work.py, lines 39-57). -/
structure CfwState where
  mode : ParallelizationModes
  children_if_root : Finset Nat
  uuid : Nat
  data : PyObj
  already_calculated_children_tracker : Finset Nat
  column_names : Finset String
  object_ids : List String
deriving DecidableEq

/-- The behaviour a concrete `ComputeFrameWork` subclass supplies: its class
name, `expected_data_framework` (`none` models the base default returning
Python `None`), `filter_engine` (`none` models the base default raising
`NotImplementedError`), `get_framework_transform_functions` for the
`from_other=True` direction keyed by the source type name, the
`from_other=False, other=pa.Table` direction used before uploads, and the
merge engine (`none` models the base default raising `NotImplementedError`). -/
structure CfwImpl where
  class_name : String
  expected_data_framework : Option String
  filter_engine : Option FilterEngineM
  transform_from : String → Option (PyObj → PyObj)
  transform_to_flight : Option (PyObj → PyObj)
  merge : Option (PyObj → PyObj → JoinType → Index → Index → Except PyErr PyObj)

/-- Modelled from the spec: the FlightServer exchange service
(mloda_core/runtime/flight/flight_server.py, whose source is not available
here) is a table store addressed by a location and a string object id;
`upload` overwrites any table already stored under the same key. -/
structure FlightState where
  tables : List (String × String × PyObj)
deriving DecidableEq, Repr

/-- Modelled from the spec: `FlightServer.upload_table(location, data, object_id)`. -/
def FlightState.uploadTable (fl : FlightState) (loc oid : String) (d : PyObj) : FlightState :=
  { tables := (loc, oid, d) :: fl.tables.filter fun t => !(t.1 == loc && t.2.1 == oid) }

/-- Modelled from the spec: lookup of the table stored under a key. -/
def FlightState.lookup (fl : FlightState) (loc oid : String) : Option PyObj :=
  (fl.tables.find? fun t => t.1 == loc && t.2.1 == oid).map fun t => t.2.2

/-- Modelled from the spec: `FlightServer.drop_tables(location, table_keys)`. -/
def FlightState.dropTables (fl : FlightState) (loc : String) (keys : Finset String) : FlightState :=
  { tables := fl.tables.filter fun t => !(t.1 == loc && decide (t.2.1 ∈ keys)) }

/-- `ComputeFrameWork.__init__` (compute_frame_work.py, lines 39-57).  Python
evaluates the `uuid: UUID = uuid4()` default once, when the method object is
created, so the same `default_uuid` is shared by every construction that does
not pass an explicit uuid; the explicit `default_uuid` parameter makes that
definition-time value visible. -/
def ComputeFrameWork.init (mode : ParallelizationModes) (children_if_root : Finset Nat)
    (uuid : Option Nat) (default_uuid : Nat) : CfwState where
  mode := mode
  children_if_root := children_if_root
  uuid := uuid.getD default_uuid
  data := .pynone
  already_calculated_children_tracker := ∅
  column_names := ∅
  object_ids := []

/-- `ComputeFrameWork.upload_table` (compute_frame_work.py, lines 335-347):
convert the data towards `pa.Table` if a conversion is registered (mutating
`self.data`), upload under the given object id — or under the fresh
`uuid4()` value `fresh` when none is given — and record the id. -/
def ComputeFrameWork.upload_table (impl : CfwImpl) (st : CfwState) (fl : FlightState)
    (location : String) (object_id : Option Nat) (fresh : Nat) :
    CfwState × FlightState × String :=
  let oid := toString (object_id.getD fresh)
  let st := match impl.transform_to_flight with
    | some f => { st with data := f st.data }
    | none => st
  let fl := fl.uploadTable location oid st.data
  ({ st with object_ids := st.object_ids ++ [oid] }, fl, oid)

/-- `ComputeFrameWork.upload_finished_data` (compute_frame_work.py, lines
330-333): upload the table under the instance's own cfw uuid. -/
def ComputeFrameWork.upload_finished_data (impl : CfwImpl) (st : CfwState) (fl : FlightState)
    (location : String) : CfwState × FlightState × String :=
  ComputeFrameWork.upload_table impl st fl location (some st.uuid) 0

/-- `ComputeFrameWork.drop_last_data` (compute_frame_work.py, lines 369-374):
drop the exchange-resident table when the current data is its string handle
and a location is known, then clear the in-memory data. -/
def ComputeFrameWork.drop_last_data (st : CfwState) (fl : FlightState)
    (location : Option String) : CfwState × FlightState :=
  match st.data, location with
  | .pystr s, some loc => ({ st with data := .pynone }, fl.dropTables loc {s})
  | _, _ => ({ st with data := .pynone }, fl)

/-- The `Union[bool, frozenset[UUID]]` result of
`add_already_calculated_children_and_drop_if_possible`. -/
inductive AddResult where
  | done
  | pendingChildren (s : Finset Nat)
  | moreWork
deriving DecidableEq

/-- `ComputeFrameWork.add_already_calculated_children_and_drop_if_possible`
(compute_frame_work.py, lines 275-293): record the newly satisfied children;
once the full declared child set is covered, drop the data and signal done
(`True`); else, if object ids were uploaded, return the declared child set;
else signal `False`. -/
def ComputeFrameWork.add_already_calculated_children_and_drop_if_possible
    (st : CfwState) (fl : FlightState) (children : Finset Nat) (location : Option String) :
    CfwState × FlightState × AddResult :=
  let st := { st with already_calculated_children_tracker :=
    st.already_calculated_children_tracker ∪ children }
  if st.children_if_root ⊆ st.already_calculated_children_tracker then
    let r := ComputeFrameWork.drop_last_data st fl location
    (r.1, r.2, .done)
  else if 0 < st.object_ids.length then
    (st, fl, .pendingChildren st.children_if_root)
  else
    (st, fl, .moreWork)

/-- A feature group as the calculation pipeline consumes it (an external
collaborator of the core, specified at its interface): `calculate_feature`
plus the two validators. -/
structure FeatureGroup where
  calculate_feature : PyObj → FeatureSetState → PyObj
  validate_input_features : PyObj → FeatureSetState → VRes
  validate_output_features : PyObj → FeatureSetState → VRes

/-- `ComputeFrameWork.run_validate_input_features` (compute_frame_work.py,
lines 212-225) for an instance with no function extenders (the constructor
default): skip when no data is held, otherwise raise `ValueError(result)`
unless the result is `None` or `True`. -/
def ComputeFrameWork.run_validate_input_features (fg : FeatureGroup) (st : CfwState)
    (features : FeatureSetState) : Except PyErr Unit :=
  match st.data with
  | .pynone => .ok ()
  | _ =>
    match fg.validate_input_features st.data features with
    | .vNone => .ok ()
    | .vTrue => .ok ()
    | .vOther v => .error (.valueError (.vOther v))

/-- `ComputeFrameWork.run_validate_output_features` (compute_frame_work.py,
lines 227-239), same shape as the input variant. -/
def ComputeFrameWork.run_validate_output_features (fg : FeatureGroup) (st : CfwState)
    (features : FeatureSetState) : Except PyErr Unit :=
  match st.data with
  | .pynone => .ok ()
  | _ =>
    match fg.validate_output_features st.data features with
    | .vNone => .ok ()
    | .vTrue => .ok ()
    | .vOther v => .error (.valueError (.vOther v))

/-- `ComputeFrameWork.set_filter_engine` (compute_frame_work.py, lines
191-210): bind the framework's filter engine onto the feature set; the base
default raising `NotImplementedError` leaves the set untouched.  The
`issubclass` guard always passes in the embedding because every
`FilterEngineM` is a filter engine. -/
def ComputeFrameWork.set_filter_engine (impl : CfwImpl) (features : FeatureSetState) :
    FeatureSetState :=
  match impl.filter_engine with
  | none => features
  | some fe => { features with filter_engine := some fe }

/-- `ComputeFrameWork.run_final_filter` (compute_frame_work.py, lines 177-189):
apply the bound filter engine when it declares final-stage filtering;
a `NotImplementedError` from `final_filters` (modelled as `none`) or a
`False` answer leaves the data unchanged. -/
def ComputeFrameWork.run_final_filter (data : PyObj) (features : FeatureSetState) : PyObj :=
  match features.filter_engine with
  | none => data
  | some fe =>
    match fe.final_filters with
    | none => data
    | some false => data
    | some true => fe.apply_filters data

/-- `ComputeFrameWork.transform_refactored` (compute_frame_work.py, lines
100-117): data already of the expected type is returned as is; else a
registered transform map, then the framework's own conversion functions, are
tried; `none` signals the Python `return None`.  When
`expected_data_framework()` is Python `None`, `isinstance(data, None)`
raises a `TypeError`. -/
def ComputeFrameWork.transform_refactored (impl : CfwImpl) (data : PyObj)
    (transform_map : ComputeFrameworkTransformMap) : Except PyErr (Option PyObj) :=
  match impl.expected_data_framework with
  | none => .error (.typeError "isinstance() arg 2 must be a type")
  | some ty =>
    if data.isinstanceOf ty then .ok (some data)
    else if transform_map.transform_map then
      .ok (some (transform_map.transform data data.typeName ty))
    else
      match impl.transform_from data.typeName with
      | some f => .ok (some (f data))
      | none => .ok none

/-- `ComputeFrameWork.transform` (compute_frame_work.py, lines 81-98): the
refactored conversion, falling back to the unchanged data when it produced
nothing.  The `feature_names` argument is unused by the base implementation,
exactly as in the source. -/
def ComputeFrameWork.transform (impl : CfwImpl) (data : PyObj) (feature_names : Finset String)
    (transform_map : ComputeFrameworkTransformMap) : Except PyErr PyObj :=
  (ComputeFrameWork.transform_refactored impl data transform_map).map fun td =>
    match td with
    | some d => d
    | none => data

/-- `ComputeFrameWork.run_calculation` (compute_frame_work.py, lines 142-175),
for an instance without function extenders: adopt handed-in data, validate
input, bind the filter engine, calculate, final-filter, transform (with the
definition-time default empty transform map), validate output, then either
stop (no location), hand back the in-memory data (unconsumed children
remain), or upload to the exchange service and return the string handle. -/
def ComputeFrameWork.run_calculation (impl : CfwImpl) (fg : FeatureGroup) (st : CfwState)
    (fl : FlightState) (features : FeatureSetState) (location : Option String)
    (data : PyObj) : Except PyErr (CfwState × FlightState × PyObj) :=
  let st := if data = PyObj.pynone then st else { st with data := data }
  match ComputeFrameWork.run_validate_input_features fg st features with
  | .error e => .error e
  | .ok _ =>
    let features := ComputeFrameWork.set_filter_engine impl features
    let d := fg.calculate_feature st.data features
    let d := ComputeFrameWork.run_final_filter d features
    let names := features.get_all_names
    match ComputeFrameWork.transform impl d names ComputeFrameworkTransformMap.empty with
    | .error e => .error e
    | .ok td =>
      let st := { st with data := td }
      match ComputeFrameWork.run_validate_output_features fg st features with
      | .error e => .error e
      | .ok _ =>
        match location with
        | none => .ok (st, fl, .pynone)
        | some loc =>
          if st.already_calculated_children_tracker.card + features.features.card
              < st.children_if_root.card then
            .ok (st, fl, st.data)
          else
            let r := ComputeFrameWork.upload_finished_data impl st fl loc
            let st := { r.1 with data := PyObj.pystr r.2.2 }
            .ok (st, r.2.1, st.data)

/-- The canonical cross-boundary table type `pyarrow.Table`, the `pa.Table`
of the source. -/
def paTableTy : String := "pyarrow.Table"

/-- `ComputeFrameWork.convert_flyserver_data_back` (compute_frame_work.py,
lines 349-363): data that is not a `pa.Table` passes through; a table already
of the expected type passes through; else the registered conversion applies,
and without one a `ValueError` names both types. -/
def ComputeFrameWork.convert_flyserver_data_back (impl : CfwImpl) (data : PyObj) :
    Except PyErr PyObj :=
  if !(data.isinstanceOf paTableTy) then .ok data
  else
    match impl.expected_data_framework with
    | none => .error (.typeError "isinstance() arg 2 must be a type")
    | some ty =>
      if data.isinstanceOf ty then .ok data
      else
        match impl.transform_from paTableTy with
        | some f => .ok (f data)
        | none => .error (.valueErrorMsg
            "Conversion to the expected data framework is not supported. This can be created, when a flyserver was used.")

/-- Modelled from the spec: `Link` (mloda_core/abstract_plugins/components/link.py,
whose source is not available here) is the immutable join specification:
join type, each side's feature-group type and `Index`, and a generated uuid
identifying it as a graph edge. -/
structure Link where
  jointype : JoinType
  left_feature_group : String
  left_index : Index
  right_feature_group : String
  right_index : Index
  uuid : Nat
deriving DecidableEq, Repr

/-- Modelled from the spec: the `CfwManager` registry as the join step consumes
it — the run's location, and the set of framework-instance uuids whose data
is resident in the exchange service (`get_uuid_flyway_datasets`). -/
structure CfwManager where
  location : Option String
  flyway_datasets : Finset Nat

/-- Modelled from the spec: `CfwManager.get_location`. -/
def CfwManager.get_location (reg : CfwManager) : Option String := reg.location

/-- Modelled from the spec: `CfwManager.get_uuid_flyway_datasets(uuid)` reports
whether the framework instance was previously externalized. -/
def CfwManager.get_uuid_flyway_datasets (reg : CfwManager) (uuid : Nat) : Bool :=
  uuid ∈ reg.flyway_datasets

/-- `JoinStep.__init__` (join_step.py, lines 12-28).  Framework types are
identified by class name. -/
structure JoinStep where
  link : Link
  left_framework : String
  right_framework : String
  required_uuids : Finset Nat
  left_framework_uuids : Finset Nat
  right_framework_uuids : Finset Nat
  uuid : Nat
  step_is_done : Bool

/-- `JoinStep.matched` (join_step.py, lines 73-86): the step's own uuid when
the feature id is required and the framework type is the declared left or
right side, `None` otherwise. -/
def JoinStep.matched (js : JoinStep) (other_framework : String) (uuid : Nat) : Option Nat :=
  if uuid ∉ js.required_uuids then none
  else if other_framework = js.left_framework then some js.uuid
  else if other_framework = js.right_framework then some js.uuid
  else none

/-- `JoinStep.get_data` (join_step.py, lines 58-71): with a location and a bare
uuid, download from the exchange service and convert back to the destination
framework's native type; a bare uuid without a location is an error;
otherwise read the "from" framework's in-memory data. -/
def JoinStep.get_data (location : Option String) (impl : CfwImpl)
    (from_cfw : Sum Nat CfwState) (fl : FlightState) : Except PyErr PyObj :=
  match location, from_cfw with
  | some loc, .inl u =>
    match fl.lookup loc (toString u) with
    | some d => ComputeFrameWork.convert_flyserver_data_back impl d
    | none => .error (.valueErrorMsg "FlightServer: object not found")
  | none, .inl _ => .error (.valueErrorMsg "From_cfw is a UUID, but we are not using flightserver.")
  | _, .inr from_state => .ok from_state.data

/-- `JoinStep.execute` (join_step.py, lines 33-56): require a "from" side,
fetch its data, merge it into the destination framework's data with the
link's join type and indices, and — when a location is set and the
destination was previously externalized — re-upload under the destination's
own uuid. -/
def JoinStep.execute (js : JoinStep) (reg : CfwManager) (impl : CfwImpl) (st : CfwState)
    (fl : FlightState) (from_cfw : Option (Sum Nat CfwState)) :
    Except PyErr (CfwState × FlightState) :=
  let location := reg.get_location
  match from_cfw with
  | none => .error (.valueErrorMsg "From_cfw should not be none for join step.")
  | some fc =>
    match JoinStep.get_data location impl fc fl with
    | .error e => .error e
    | .ok from_cfw_data =>
      match impl.merge with
      | none => .error (.notImplementedError
          ("Merge functionality is for this compute framework not implemented "
            ++ impl.class_name))
      | some mergeFn =>
        match mergeFn st.data from_cfw_data js.link.jointype js.link.left_index
            js.link.right_index with
        | .error e => .error e
        | .ok merged =>
          let st := { st with data := merged }
          match location with
          | some loc =>
            if reg.get_uuid_flyway_datasets st.uuid then
              let r := ComputeFrameWork.upload_finished_data impl st fl loc
              .ok (r.1, r.2.1)
            else .ok (st, fl)
          | none => .ok (st, fl)

/-- Short alias for the bookkeeping method, used in the theorem statements. -/
abbrev addCalc := ComputeFrameWork.add_already_calculated_children_and_drop_if_possible

/-- A concrete framework-instance state used by the witnesses: two declared
children, one already satisfied, data externalized as object id "42". -/
def exCfw : CfwState where
  mode := .MULTIPROCESSING
  children_if_root := {1, 2}
  uuid := 42
  data := PyObj.pystr "42"
  already_calculated_children_tracker := {1}
  column_names := ∅
  object_ids := ["42"]

/-- `exCfw` before any data was computed. -/
def exCfwNoData : CfwState := { exCfw with data := PyObj.pynone }

/-- A concrete "from"-side framework instance for the join-step witness. -/
def exFromCfw : CfwState :=
  { exCfw with uuid := 43, data := PyObj.pyobj paTableTy 9, object_ids := [] }

/-- A concrete exchange-service state holding `exCfw`'s externalized table. -/
def exFlight : FlightState where
  tables := [("loc", "42", PyObj.pyobj paTableTy 0)]

/-- A concrete pyarrow-like framework implementation for the witnesses; its
merge engine returns the left (destination) data. -/
def exImpl : CfwImpl where
  class_name := "PyarrowTable"
  expected_data_framework := some paTableTy
  filter_engine := none
  transform_from := fun _ => none
  transform_to_flight := none
  merge := some fun left _ _ _ _ => Except.ok left

/-- A feature group whose validators always pass. -/
def exFeatureGroup : FeatureGroup where
  calculate_feature := fun _ _ => PyObj.pyobj paTableTy 5
  validate_input_features := fun _ _ => VRes.vNone
  validate_output_features := fun _ _ => VRes.vNone

/-- A feature group whose input validator always reports the failure value
"bad input". -/
def exFailFeatureGroup : FeatureGroup where
  calculate_feature := fun _ _ => PyObj.pyobj paTableTy 5
  validate_input_features := fun _ _ => VRes.vOther "bad input"
  validate_output_features := fun _ _ => VRes.vNone

/-- A concrete feature. -/
def exFeature1 : Feature where
  name := "f1"
  options := 10
  uuid := 1
  initial_requested_data := true

/-- A second concrete feature with a different name and options bag. -/
def exFeature2 : Feature where
  name := "f2"
  options := 20
  uuid := 2
  initial_requested_data := false

/-- A concrete feature set holding `exFeature1`. -/
def exFeatureSet : FeatureSetState := FeatureSetState.init.add exFeature1

/-- A concrete join step for the routing and execution witnesses. -/
def exJoinStep : JoinStep where
  link := { jointype := .INNER, left_feature_group := "A", left_index := exIdx,
            right_feature_group := "B", right_index := exIdx, uuid := 100 }
  left_framework := "PyarrowTable"
  right_framework := "PandasDataframe"
  required_uuids := {5, 6}
  left_framework_uuids := {7}
  right_framework_uuids := {8}
  uuid := 99
  step_is_done := false

/-- A concrete registry: the run's location is "loc" and `exCfw` (uuid 42) was
previously externalized. -/
def exManager : CfwManager where
  location := some "loc"
  flyway_datasets := {42}

/-- The destination state `JoinStep.execute` produces in the C4 witness run. -/
def exSt4 : CfwState := { exCfw with data := PyObj.pystr "42", object_ids := ["42", "42"] }

/-- The exchange state `JoinStep.execute` produces in the C4 witness run. -/
def exFl4 : FlightState := exFlight.uploadTable "loc" "42" (PyObj.pystr "42")

/-! ## Helper lemmas -/

theorem headI_index (i : Index) : i.index.headI = i.head := rfl

theorem mem_innerRows (lc rc : String) (L R : DataFrame) (p : JRow) :
    p ∈ innerRows lc rc L R ↔
      ∃ l r, p = (some l, some r) ∧ l ∈ L ∧ r ∈ R ∧ keyMatch lc rc l r = true := by
  simp only [innerRows, List.mem_flatMap, List.mem_map, List.mem_filter]
  constructor
  · rintro ⟨l, hl, r, ⟨hr, hk⟩, rfl⟩
    exact ⟨l, r, rfl, hl, hr, hk⟩
  · rintro ⟨l, r, rfl, hl, hr, hk⟩
    exact ⟨l, hl, r, ⟨hr, hk⟩, rfl⟩

theorem mem_leftRows (lc rc : String) (L R : DataFrame) (p : JRow) :
    p ∈ leftRows lc rc L R ↔
      ((∃ l r, p = (some l, some r) ∧ l ∈ L ∧ r ∈ R ∧ keyMatch lc rc l r = true) ∨
        (∃ l, p = (some l, none) ∧ l ∈ L ∧ ∀ r ∈ R, keyMatch lc rc l r = false)) := by
  simp only [leftRows, List.mem_flatMap]
  constructor
  · rintro ⟨l, hl, hp⟩
    by_cases h : (R.filter fun r => keyMatch lc rc l r).isEmpty
    · rw [if_pos h] at hp
      have h' := List.isEmpty_iff.mp h
      have hall : ∀ r ∈ R, keyMatch lc rc l r = false := by
        intro r hr
        simpa using List.filter_eq_nil_iff.mp h' r hr
      simp only [List.mem_singleton] at hp
      exact Or.inr ⟨l, hp, hl, hall⟩
    · rw [if_neg h] at hp
      simp only [List.mem_map, List.mem_filter] at hp
      obtain ⟨r, ⟨hr, hk⟩, rfl⟩ := hp
      exact Or.inl ⟨l, r, rfl, hl, hr, hk⟩
  · rintro (⟨l, r, rfl, hl, hr, hk⟩ | ⟨l, rfl, hl, hall⟩)
    · refine ⟨l, hl, ?_⟩
      have h : ¬(R.filter fun r => keyMatch lc rc l r).isEmpty = true := by
        intro h
        have h' := List.isEmpty_iff.mp h
        have := List.filter_eq_nil_iff.mp h' r hr
        simp [hk] at this
      rw [if_neg h]
      simp only [List.mem_map, List.mem_filter]
      exact ⟨r, ⟨hr, hk⟩, rfl⟩
    · refine ⟨l, hl, ?_⟩
      have h : (R.filter fun r => keyMatch lc rc l r).isEmpty = true := by
        rw [List.isEmpty_iff, List.filter_eq_nil_iff]
        intro r hr
        simp [hall r hr]
      rw [if_pos h]
      simp

theorem mem_rightRows (lc rc : String) (L R : DataFrame) (p : JRow) :
    p ∈ rightRows lc rc L R ↔
      ((∃ l r, p = (some l, some r) ∧ l ∈ L ∧ r ∈ R ∧ keyMatch lc rc l r = true) ∨
        (∃ r, p = (none, some r) ∧ r ∈ R ∧ ∀ l ∈ L, keyMatch lc rc l r = false)) := by
  simp only [rightRows, List.mem_flatMap]
  constructor
  · rintro ⟨r, hr, hp⟩
    by_cases h : (L.filter fun l => keyMatch lc rc l r).isEmpty
    · rw [if_pos h] at hp
      have h' := List.isEmpty_iff.mp h
      have hall : ∀ l ∈ L, keyMatch lc rc l r = false := by
        intro l hl
        simpa using List.filter_eq_nil_iff.mp h' l hl
      simp only [List.mem_singleton] at hp
      exact Or.inr ⟨r, hp, hr, hall⟩
    · rw [if_neg h] at hp
      simp only [List.mem_map, List.mem_filter] at hp
      obtain ⟨l, ⟨hl, hk⟩, rfl⟩ := hp
      exact Or.inl ⟨l, r, rfl, hl, hr, hk⟩
  · rintro (⟨l, r, rfl, hl, hr, hk⟩ | ⟨r, rfl, hr, hall⟩)
    · refine ⟨r, hr, ?_⟩
      have h : ¬(L.filter fun l => keyMatch lc rc l r).isEmpty = true := by
        intro h
        have h' := List.isEmpty_iff.mp h
        have := List.filter_eq_nil_iff.mp h' l hl
        simp [hk] at this
      rw [if_neg h]
      simp only [List.mem_map, List.mem_filter]
      exact ⟨l, ⟨hl, hk⟩, rfl⟩
    · refine ⟨r, hr, ?_⟩
      have h : (L.filter fun l => keyMatch lc rc l r).isEmpty = true := by
        rw [List.isEmpty_iff, List.filter_eq_nil_iff]
        intro l hl
        simp [hall l hl]
      rw [if_pos h]
      simp

theorem mem_outerRows (lc rc : String) (L R : DataFrame) (p : JRow) :
    p ∈ outerRows lc rc L R ↔
      ((∃ l r, p = (some l, some r) ∧ l ∈ L ∧ r ∈ R ∧ keyMatch lc rc l r = true) ∨
        (∃ l, p = (some l, none) ∧ l ∈ L ∧ ∀ r ∈ R, keyMatch lc rc l r = false) ∨
        (∃ r, p = (none, some r) ∧ r ∈ R ∧ ∀ l ∈ L, keyMatch lc rc l r = false)) := by
  simp only [outerRows, List.mem_append, mem_leftRows, List.mem_map, List.mem_filter]
  constructor
  · rintro ((h | h) | ⟨r, ⟨hr, hall⟩, rfl⟩)
    · exact Or.inl h
    · exact Or.inr (Or.inl h)
    · refine Or.inr (Or.inr ⟨r, rfl, hr, ?_⟩)
      intro l hl
      have := List.all_eq_true.mp hall l hl
      simpa using this
  · rintro (h | h | ⟨r, rfl, hr, hall⟩)
    · exact Or.inl (Or.inl h)
    · exact Or.inl (Or.inr h)
    · refine Or.inr ⟨r, ⟨hr, ?_⟩, rfl⟩
      rw [List.all_eq_true]
      intro l hl
      simp [hall l hl]

theorem pd_merge_isSqlJoin (jt : JoinType) (lc rc : String) (L R : DataFrame) :
    isSqlJoin jt lc rc L R (pd_merge jt L R lc rc) := by
  cases jt
  · exact fun p => mem_innerRows lc rc L R p
  · exact fun p => mem_leftRows lc rc L R p
  · exact fun p => mem_rightRows lc rc L R p
  · exact fun p => mem_outerRows lc rc L R p

/-! ## Claim theorems -/

/-- C1: for every merge-engine `merge` call with any of the four join types,
a composite (multi-column) index on either side raises the unsupported-index
error instead of silently joining on the first column, while simple indices
on both sides perform the relational join with the SQL semantics of the join
type; on the spec's literal tables, inner yields one row, left two, right
two, and full outer three. -/
theorem C1_merge_composite_rejected_simple_is_sql_join :
    (∀ (jt : JoinType) (ld rd : DataFrame) (li ri : Index),
        (li.is_multi_index || ri.is_multi_index) = true →
        PandasMergeEngine.merge ld rd jt li ri =
          Except.error "MultiIndex is not yet implemented PandasMergeEngine") ∧
    (∀ (jt : JoinType) (ld rd : DataFrame) (li ri : Index),
        li.is_multi_index = false → ri.is_multi_index = false →
        PandasMergeEngine.merge ld rd jt li ri =
          Except.ok (pd_merge jt ld rd li.head ri.head) ∧
        isSqlJoin jt li.head ri.head ld rd (pd_merge jt ld rd li.head ri.head)) ∧
    PandasMergeEngine.merge exLeft exRight .INNER exIdx exIdx =
      Except.ok [(some exL1, some exR1)] ∧
    PandasMergeEngine.merge exLeft exRight .LEFT exIdx exIdx =
      Except.ok [(some exL1, some exR1), (some exL2, none)] ∧
    PandasMergeEngine.merge exLeft exRight .RIGHT exIdx exIdx =
      Except.ok [(some exL1, some exR1), (none, some exR2)] ∧
    PandasMergeEngine.merge exLeft exRight .OUTER exIdx exIdx =
      Except.ok [(some exL1, some exR1), (some exL2, none), (none, some exR2)] := by
  refine ⟨?_, ?_, rfl, rfl, rfl, rfl⟩
  · intro jt ld rd li ri h
    cases jt <;>
      simp [PandasMergeEngine.merge, BaseMergeEngine.merge, pandasMergeEngine,
        PandasMergeEngine.merge_logic, h]
  · intro jt ld rd li ri hl hr
    refine ⟨?_, pd_merge_isSqlJoin jt li.head ri.head ld rd⟩
    cases jt <;>
      simp [PandasMergeEngine.merge, BaseMergeEngine.merge, pandasMergeEngine,
        PandasMergeEngine.merge_logic, hl, hr, headI_index]

/-- Witness for C1: the composite-index error and the simple-index success,
each at a concrete input. -/
theorem C1_witness :
    PandasMergeEngine.merge exLeft exRight .INNER exCompositeIdx exIdx =
      Except.error "MultiIndex is not yet implemented PandasMergeEngine" ∧
    PandasMergeEngine.merge exLeft exRight .OUTER exIdx exIdx =
      Except.ok (pd_merge .OUTER exLeft exRight exIdx.head exIdx.head) :=
  ⟨C1_merge_composite_rejected_simple_is_sql_join.1 .INNER exLeft exRight
      exCompositeIdx exIdx (by decide),
    (C1_merge_composite_rejected_simple_is_sql_join.2.1 .OUTER exLeft exRight
      exIdx exIdx (by decide) (by decide)).1⟩

theorem drop_last_data_data (st : CfwState) (fl : FlightState) (loc : Option String) :
    (ComputeFrameWork.drop_last_data st fl loc).1.data = PyObj.pynone := by
  unfold ComputeFrameWork.drop_last_data
  cases st.data <;> cases loc <;> rfl

theorem drop_last_data_state (st : CfwState) (fl : FlightState) (loc : Option String) :
    (ComputeFrameWork.drop_last_data st fl loc).1 = { st with data := PyObj.pynone } := by
  unfold ComputeFrameWork.drop_last_data
  cases st.data <;> cases loc <;> rfl

theorem drop_last_data_of_pynone (st : CfwState) (fl : FlightState) (loc : Option String)
    (h : st.data = PyObj.pynone) :
    ComputeFrameWork.drop_last_data st fl loc = ({ st with data := PyObj.pynone }, fl) := by
  unfold ComputeFrameWork.drop_last_data
  rw [h]

theorem addCalc_done (st : CfwState) (fl : FlightState) (children : Finset Nat)
    (location : Option String)
    (hsub : st.children_if_root ⊆ st.already_calculated_children_tracker ∪ children) :
    addCalc st fl children location =
      ((ComputeFrameWork.drop_last_data
          { st with already_calculated_children_tracker :=
              st.already_calculated_children_tracker ∪ children } fl location).1,
        (ComputeFrameWork.drop_last_data
          { st with already_calculated_children_tracker :=
              st.already_calculated_children_tracker ∪ children } fl location).2,
        AddResult.done) := by
  unfold addCalc ComputeFrameWork.add_already_calculated_children_and_drop_if_possible
  rw [if_pos hsub]

/-- C2: `add_already_calculated_children_and_drop_if_possible` returns exactly
one of three results — done (`True`) with the data dropped once the declared
children are covered, the declared children set when object ids were
uploaded but it is not done, and `False` otherwise — and the drop happens at
most once: a second call with the same children is a no-op on the exchange
service, returns done again, and cannot raise. -/
theorem C2_bookkeeping_trichotomy_and_drop_once :
    ∀ (st : CfwState) (fl : FlightState) (children : Finset Nat) (location : Option String),
      (st.children_if_root ⊆ st.already_calculated_children_tracker ∪ children →
        (addCalc st fl children location).2.2 = AddResult.done ∧
        (addCalc st fl children location).1.data = PyObj.pynone ∧
        (addCalc (addCalc st fl children location).1 (addCalc st fl children location).2.1
            children location).2.2 = AddResult.done ∧
        (addCalc (addCalc st fl children location).1 (addCalc st fl children location).2.1
            children location).1.data = PyObj.pynone ∧
        (addCalc (addCalc st fl children location).1 (addCalc st fl children location).2.1
            children location).2.1 = (addCalc st fl children location).2.1) ∧
      (¬ st.children_if_root ⊆ st.already_calculated_children_tracker ∪ children →
        0 < st.object_ids.length →
        addCalc st fl children location =
          ({ st with already_calculated_children_tracker :=
              st.already_calculated_children_tracker ∪ children }, fl,
            AddResult.pendingChildren st.children_if_root)) ∧
      (¬ st.children_if_root ⊆ st.already_calculated_children_tracker ∪ children →
        st.object_ids.length = 0 →
        addCalc st fl children location =
          ({ st with already_calculated_children_tracker :=
              st.already_calculated_children_tracker ∪ children }, fl,
            AddResult.moreWork)) := by
  intro st fl children location
  refine ⟨?_, ?_, ?_⟩
  · intro hsub
    have h1 := addCalc_done st fl children location hsub
    have hdata : (addCalc st fl children location).1.data = PyObj.pynone := by
      rw [h1]; exact drop_last_data_data _ fl location
    have hst1 : (addCalc st fl children location).1 =
        { st with already_calculated_children_tracker :=
            st.already_calculated_children_tracker ∪ children, data := PyObj.pynone } := by
      rw [h1, drop_last_data_state]
    refine ⟨by rw [h1], hdata, ?_, ?_, ?_⟩ <;> rw [hst1] <;>
      rw [addCalc_done
        { st with
          already_calculated_children_tracker := st.already_calculated_children_tracker ∪ children
          data := PyObj.pynone } _
        children location (hsub.trans Finset.subset_union_left)]
    · exact drop_last_data_data _ _ location
    · rw [drop_last_data_of_pynone _ _ location rfl]
  · intro hsub hobj
    unfold addCalc ComputeFrameWork.add_already_calculated_children_and_drop_if_possible
    rw [if_neg hsub, if_pos hobj]
  · intro hsub hobj
    unfold addCalc ComputeFrameWork.add_already_calculated_children_and_drop_if_possible
    rw [if_neg hsub, if_neg (by simp [hobj])]

/-- Witness for C2: on a concrete instance missing only child 2, marking child
2 drops the data, signals done, and a second identical call is a done-signal
no-op that leaves the exchange service untouched. -/
theorem C2_witness :
    (addCalc exCfw exFlight {2} (some "loc")).2.2 = AddResult.done ∧
    (addCalc exCfw exFlight {2} (some "loc")).1.data = PyObj.pynone ∧
    (addCalc (addCalc exCfw exFlight {2} (some "loc")).1
        (addCalc exCfw exFlight {2} (some "loc")).2.1 {2} (some "loc")).2.2 =
      AddResult.done ∧
    (addCalc (addCalc exCfw exFlight {2} (some "loc")).1
        (addCalc exCfw exFlight {2} (some "loc")).2.1 {2} (some "loc")).1.data =
      PyObj.pynone ∧
    (addCalc (addCalc exCfw exFlight {2} (some "loc")).1
        (addCalc exCfw exFlight {2} (some "loc")).2.1 {2} (some "loc")).2.1 =
      (addCalc exCfw exFlight {2} (some "loc")).2.1 :=
  (C2_bookkeeping_trichotomy_and_drop_once exCfw exFlight {2} (some "loc")).1 (by decide)

/-- C3: `JoinStep.matched` returns the step's own uuid exactly when the
feature id is among the step's required inputs and the framework type is the
declared left or right side, and returns nothing in every other case. -/
theorem C3_matched_routing :
    ∀ (js : JoinStep) (fw : String) (fid : Nat),
      (js.matched fw fid = some js.uuid ↔
        fid ∈ js.required_uuids ∧ (fw = js.left_framework ∨ fw = js.right_framework)) ∧
      ((fid ∉ js.required_uuids ∨ (fw ≠ js.left_framework ∧ fw ≠ js.right_framework)) →
        js.matched fw fid = none) := by
  intro js fw fid
  unfold JoinStep.matched
  by_cases h1 : fid ∈ js.required_uuids <;>
    by_cases h2 : fw = js.left_framework <;>
    by_cases h3 : fw = js.right_framework <;>
    simp_all

/-- Witness for C3: a feature id outside the required set yields no match even
though the framework type is the declared left side. -/
theorem C3_witness : exJoinStep.matched "PyarrowTable" 0 = none :=
  (C3_matched_routing exJoinStep "PyarrowTable" 0).2 (Or.inl (by decide))

/-- C4: when a location is set and the destination framework instance's uuid
is already registered in the exchange registry, a successful
`JoinStep.execute` uploads the merged result under the destination's own
uuid — overwriting the existing object rather than creating a fresh id —
and records exactly that id. -/
theorem C4_join_step_overwrites_own_uuid :
    ∀ (js : JoinStep) (reg : CfwManager) (impl : CfwImpl) (st st' : CfwState)
      (fl fl' : FlightState) (fc : Sum Nat CfwState) (loc : String),
      reg.location = some loc →
      reg.get_uuid_flyway_datasets st.uuid = true →
      js.execute reg impl st fl (some fc) = Except.ok (st', fl') →
      fl' = fl.uploadTable loc (toString st.uuid) st'.data ∧
      st'.uuid = st.uuid ∧
      st'.object_ids = st.object_ids ++ [toString st.uuid] := by
  intro js reg impl st st' fl fl' fc loc hloc hreg hex
  simp only [JoinStep.execute, CfwManager.get_location, hloc] at hex
  cases hgd : JoinStep.get_data (some loc) impl fc fl with
  | error e => simp only [hgd] at hex; exact (Except.noConfusion hex)
  | ok d =>
    simp only [hgd] at hex
    cases hm : impl.merge with
    | none => simp only [hm] at hex; exact (Except.noConfusion hex)
    | some mergeFn =>
      simp only [hm] at hex
      cases hmg : mergeFn st.data d js.link.jointype js.link.left_index js.link.right_index with
      | error e => simp only [hmg] at hex; exact (Except.noConfusion hex)
      | ok merged =>
        simp [hmg, hreg] at hex
        obtain ⟨hst, hfl⟩ := hex
        subst hst hfl
        cases hconv : impl.transform_to_flight <;>
          simp [ComputeFrameWork.upload_finished_data, ComputeFrameWork.upload_table, hconv]

/-- Witness for C4: a concrete externalized destination (uuid 42, object id
"42" resident at location "loc") gets its merged result re-uploaded under
object id "42". -/
theorem C4_witness :
    exFl4 = exFlight.uploadTable "loc" (toString exCfw.uuid) exSt4.data ∧
    exSt4.uuid = exCfw.uuid ∧
    exSt4.object_ids = exCfw.object_ids ++ [toString exCfw.uuid] :=
  C4_join_step_overwrites_own_uuid exJoinStep exManager exImpl exCfw exSt4 exFlight exFl4
    (Sum.inr exFromCfw) "loc" rfl (by decide) (by rfl)

theorem run_validate_input_passes (fg : FeatureGroup) (st : CfwState)
    (features : FeatureSetState) (h : ∀ d f, fg.validate_input_features d f = VRes.vNone) :
    ComputeFrameWork.run_validate_input_features fg st features = Except.ok () := by
  unfold ComputeFrameWork.run_validate_input_features
  cases st.data <;> simp [h]

theorem run_validate_output_passes (fg : FeatureGroup) (st : CfwState)
    (features : FeatureSetState) (h : ∀ d f, fg.validate_output_features d f = VRes.vNone) :
    ComputeFrameWork.run_validate_output_features fg st features = Except.ok () := by
  unfold ComputeFrameWork.run_validate_output_features
  cases st.data <;> simp [h]

theorem transform_total (impl : CfwImpl) (data : PyObj) (names : Finset String)
    (tmap : ComputeFrameworkTransformMap) (ty : String)
    (h : impl.expected_data_framework = some ty) :
    ∃ d, ComputeFrameWork.transform impl data names tmap = Except.ok d := by
  unfold ComputeFrameWork.transform ComputeFrameWork.transform_refactored
  rw [h]
  dsimp only
  by_cases h1 : data.isinstanceOf ty = true
  · rw [if_pos h1]; exact ⟨_, rfl⟩
  · rw [if_neg h1]
    by_cases h2 : tmap.transform_map = true
    · rw [if_pos h2]; exact ⟨_, rfl⟩
    · rw [if_neg h2]
      cases impl.transform_from data.typeName <;> exact ⟨_, rfl⟩

theorem set_filter_engine_features (impl : CfwImpl) (features : FeatureSetState) :
    (ComputeFrameWork.set_filter_engine impl features).features = features.features := by
  unfold ComputeFrameWork.set_filter_engine
  cases impl.filter_engine <;> rfl

/-- C5: with a non-null location, `run_calculation` hands back the in-memory
data exactly when the instance still has unconsumed declared children beyond
the features just computed (the code's length comparison), and otherwise
pushes the data to the exchange service and returns the string handle, which
is the instance's own uuid. -/
theorem C5_run_calculation_tail_decision :
    ∀ (impl : CfwImpl) (fg : FeatureGroup) (st : CfwState) (fl : FlightState)
      (features : FeatureSetState) (loc : String) (data0 : PyObj) (ty : String),
      impl.expected_data_framework = some ty →
      (∀ d f, fg.validate_input_features d f = VRes.vNone) →
      (∀ d f, fg.validate_output_features d f = VRes.vNone) →
      ∃ st' fl' out,
        ComputeFrameWork.run_calculation impl fg st fl features (some loc) data0 =
          Except.ok (st', fl', out) ∧
        (st.already_calculated_children_tracker.card + features.features.card
            < st.children_if_root.card →
          out = st'.data ∧ fl' = fl) ∧
        (¬ st.already_calculated_children_tracker.card + features.features.card
            < st.children_if_root.card →
          out = PyObj.pystr (toString st.uuid) ∧ st'.data = out ∧
          ∃ d, fl' = fl.uploadTable loc (toString st.uuid) d) := by
  intro impl fg st fl features loc data0 ty hexp hvi hvo
  unfold ComputeFrameWork.run_calculation
  by_cases hd : data0 = PyObj.pynone
  · subst hd
    rw [if_pos (show (PyObj.pynone = PyObj.pynone) from rfl)]
    dsimp only
    rw [run_validate_input_passes fg st features hvi]
    dsimp only
    obtain ⟨td, htd⟩ := transform_total impl
      (ComputeFrameWork.run_final_filter
        (fg.calculate_feature st.data (ComputeFrameWork.set_filter_engine impl features))
        (ComputeFrameWork.set_filter_engine impl features))
      (ComputeFrameWork.set_filter_engine impl features).get_all_names
      ComputeFrameworkTransformMap.empty ty hexp
    rw [htd]
    dsimp only
    rw [run_validate_output_passes fg _ _ hvo]
    dsimp only
    rw [set_filter_engine_features impl features]
    by_cases hcond : st.already_calculated_children_tracker.card + features.features.card
        < st.children_if_root.card
    · rw [if_pos hcond]
      exact ⟨_, _, _, rfl, fun _ => ⟨rfl, rfl⟩, fun hc => absurd hcond hc⟩
    · rw [if_neg hcond]
      exact ⟨_, _, _, rfl, fun hc => absurd hc hcond, fun _ => ⟨rfl, rfl, _, rfl⟩⟩
  · rw [if_neg hd]
    dsimp only
    rw [run_validate_input_passes fg _ features hvi]
    dsimp only
    obtain ⟨td, htd⟩ := transform_total impl
      (ComputeFrameWork.run_final_filter
        (fg.calculate_feature data0 (ComputeFrameWork.set_filter_engine impl features))
        (ComputeFrameWork.set_filter_engine impl features))
      (ComputeFrameWork.set_filter_engine impl features).get_all_names
      ComputeFrameworkTransformMap.empty ty hexp
    rw [htd]
    dsimp only
    rw [run_validate_output_passes fg _ _ hvo]
    dsimp only
    rw [set_filter_engine_features impl features]
    by_cases hcond : st.already_calculated_children_tracker.card + features.features.card
        < st.children_if_root.card
    · rw [if_pos hcond]
      exact ⟨_, _, _, rfl, fun _ => ⟨rfl, rfl⟩, fun hc => absurd hcond hc⟩
    · rw [if_neg hcond]
      exact ⟨_, _, _, rfl, fun hc => absurd hc hcond, fun _ => ⟨rfl, rfl, _, rfl⟩⟩

/-- Witness for C5: on a concrete instance whose children are all accounted
for, `run_calculation` with a location takes the upload branch. -/
theorem C5_witness :
    ∃ st' fl' out,
      ComputeFrameWork.run_calculation exImpl exFeatureGroup exCfw exFlight exFeatureSet
          (some "loc") PyObj.pynone = Except.ok (st', fl', out) ∧
      (exCfw.already_calculated_children_tracker.card + exFeatureSet.features.card
          < exCfw.children_if_root.card →
        out = st'.data ∧ fl' = exFlight) ∧
      (¬ exCfw.already_calculated_children_tracker.card + exFeatureSet.features.card
          < exCfw.children_if_root.card →
        out = PyObj.pystr (toString exCfw.uuid) ∧ st'.data = out ∧
        ∃ d, fl' = exFlight.uploadTable "loc" (toString exCfw.uuid) d) :=
  C5_run_calculation_tail_decision exImpl exFeatureGroup exCfw exFlight exFeatureSet "loc"
    PyObj.pynone paTableTy rfl (fun _ _ => rfl) (fun _ _ => rfl)

/-- C6: `transform` on data already an instance of the concrete expected
physical type returns that very data unchanged. -/
theorem C6_transform_identity_on_expected_type :
    ∀ (impl : CfwImpl) (data : PyObj) (names : Finset String)
      (tmap : ComputeFrameworkTransformMap) (ty : String),
      impl.expected_data_framework = some ty →
      data.isinstanceOf ty = true →
      ComputeFrameWork.transform impl data names tmap = Except.ok data := by
  intro impl data names tmap ty hexp hinst
  unfold ComputeFrameWork.transform ComputeFrameWork.transform_refactored
  rw [hexp]
  dsimp only
  rw [if_pos hinst]
  rfl

/-- Witness for C6: a `pyarrow.Table`-typed value passes through a
pyarrow-expecting framework unchanged. -/
theorem C6_witness :
    ComputeFrameWork.transform exImpl (PyObj.pyobj paTableTy 3) ∅
        ComputeFrameworkTransformMap.empty = Except.ok (PyObj.pyobj paTableTy 3) :=
  C6_transform_identity_on_expected_type exImpl (PyObj.pyobj paTableTy 3) ∅
    ComputeFrameworkTransformMap.empty paTableTy rfl rfl

theorem add_options_of_some (fs : FeatureSetState) (g : Feature) (o : Nat)
    (h : fs.options = some o) : (fs.add g).options = some o := by
  simp [FeatureSetState.add, h]

theorem add_any_uuid_of_some (fs : FeatureSetState) (g : Feature) (u : Nat)
    (h : fs.any_uuid = some u) : (fs.add g).any_uuid = some u := by
  simp [FeatureSetState.add, h]

theorem foldl_add_options (rest : List Feature) :
    ∀ (fs : FeatureSetState) (o : Nat), fs.options = some o →
      (rest.foldl FeatureSetState.add fs).options = some o := by
  induction rest with
  | nil => intro fs o h; simpa using h
  | cons g rest ih =>
    intro fs o h
    rw [List.foldl_cons]
    exact ih _ o (add_options_of_some fs g o h)

theorem foldl_add_any_uuid (rest : List Feature) :
    ∀ (fs : FeatureSetState) (u : Nat), fs.any_uuid = some u →
      (rest.foldl FeatureSetState.add fs).any_uuid = some u := by
  induction rest with
  | nil => intro fs u h; simpa using h
  | cons g rest ih =>
    intro fs u h
    rw [List.foldl_cons]
    exact ih _ u (add_any_uuid_of_some fs g u h)

theorem getLast_cons_getD (rest : List Feature) :
    ∀ (a g : Feature), (a :: rest).getLast?.getD g = rest.getLast?.getD a := by
  induction rest with
  | nil => intro a g; rfl
  | cons b l ih =>
    intro a g
    rw [List.getLast?_cons_cons]
    rw [show (b :: l).getLast?.getD g = l.getLast?.getD b from ih b g,
      show (b :: l).getLast?.getD a = l.getLast?.getD b from ih b a]

theorem foldl_add_name (rest : List Feature) :
    ∀ (fs : FeatureSetState) (g : Feature),
      (rest.foldl FeatureSetState.add (fs.add g)).name_of_one_feature =
        some ((rest.getLast?.getD g).name) := by
  induction rest with
  | nil => intro fs g; simp [FeatureSetState.add]
  | cons a rest ih =>
    intro fs g
    rw [List.foldl_cons]
    rw [ih (fs.add g) a]
    rw [getLast_cons_getD rest a g]

/-- C7 counterexample: adding a second, differently named feature re-points
`name_of_one_feature` at it, so the representative name is not frozen to the
first-added feature. -/
theorem C7_counterexample :
    ((FeatureSetState.init.add exFeature1).add exFeature2).name_of_one_feature ≠
      some exFeature1.name := by
  intro h
  simp [FeatureSetState.add, exFeature1, exFeature2] at h

/-- C7 (amended): after the first feature is added, the set's options bag and
`any_uuid` stay frozen references to that first-added feature through any
sequence of later adds, while `name_of_one_feature` is re-pointed on every
add and therefore names the most recently added feature. -/
theorem C7_options_frozen_name_tracks_last_add :
    ∀ (f : Feature) (rest : List Feature),
      (rest.foldl FeatureSetState.add (FeatureSetState.init.add f)).options = some f.options ∧
      (rest.foldl FeatureSetState.add (FeatureSetState.init.add f)).any_uuid = some f.uuid ∧
      (rest.foldl FeatureSetState.add (FeatureSetState.init.add f)).name_of_one_feature =
        some ((rest.getLast?.getD f).name) := by
  intro f rest
  refine ⟨foldl_add_options rest _ f.options ?_, foldl_add_any_uuid rest _ f.uuid ?_,
    foldl_add_name rest FeatureSetState.init f⟩
  · simp [FeatureSetState.add, FeatureSetState.init]
  · simp [FeatureSetState.add, FeatureSetState.init]

/-- C8: with data held, the feature group's validation result is raised
verbatim as `ValueError(result)` exactly when it is neither `None` nor
`True`; on `None` or `True` the pipeline proceeds without error, for both
the input and the output validator. -/
theorem C8_validation_result_raised_verbatim :
    ∀ (fg : FeatureGroup) (st : CfwState) (features : FeatureSetState),
      st.data ≠ PyObj.pynone →
      ((fg.validate_input_features st.data features = VRes.vNone ∨
          fg.validate_input_features st.data features = VRes.vTrue) →
        ComputeFrameWork.run_validate_input_features fg st features = Except.ok ()) ∧
      (∀ v, fg.validate_input_features st.data features = VRes.vOther v →
        ComputeFrameWork.run_validate_input_features fg st features =
          Except.error (PyErr.valueError (VRes.vOther v))) ∧
      ((fg.validate_output_features st.data features = VRes.vNone ∨
          fg.validate_output_features st.data features = VRes.vTrue) →
        ComputeFrameWork.run_validate_output_features fg st features = Except.ok ()) ∧
      (∀ v, fg.validate_output_features st.data features = VRes.vOther v →
        ComputeFrameWork.run_validate_output_features fg st features =
          Except.error (PyErr.valueError (VRes.vOther v))) := by
  intro fg st features hne
  unfold ComputeFrameWork.run_validate_input_features
    ComputeFrameWork.run_validate_output_features
  cases hd : st.data with
  | pynone => exact absurd hd hne
  | pystr s =>
    refine ⟨fun h => ?_, fun v h => ?_, fun h => ?_, fun v h => ?_⟩
    · rcases h with h | h <;> rw [h]
    · rw [h]
    · rcases h with h | h <;> rw [h]
    · rw [h]
  | pyobj t p =>
    refine ⟨fun h => ?_, fun v h => ?_, fun h => ?_, fun v h => ?_⟩
    · rcases h with h | h <;> rw [h]
    · rw [h]
    · rcases h with h | h <;> rw [h]
    · rw [h]

/-- Witness for C8: a validator returning the value "bad input" on an
instance holding data raises exactly `ValueError("bad input")`. -/
theorem C8_witness :
    ComputeFrameWork.run_validate_input_features exFailFeatureGroup exCfw exFeatureSet =
      Except.error (PyErr.valueError (VRes.vOther "bad input")) :=
  (C8_validation_result_raised_verbatim exFailFeatureGroup exCfw exFeatureSet
    (by decide)).2.1 "bad input" rfl

/-- C9: the constructor default `uuid: UUID = uuid4()` is evaluated once, at
method-definition time, so any two instances constructed without an explicit
uuid receive the same identifier — contradicting the claim that each
construction generates a fresh, distinct uuid.  This evaluates the code at
the failing input: two default constructions in one interpreter session. -/
theorem C9_default_uuid_shared_across_instances :
    ∀ (d : Nat) (m1 m2 : ParallelizationModes) (c1 c2 : Finset Nat),
      (ComputeFrameWork.init m1 c1 none d).uuid = (ComputeFrameWork.init m2 c2 none d).uuid :=
  fun _ _ _ _ _ => rfl

theorem run_validate_output_ignores_input_validator (fg : FeatureGroup)
    (v : PyObj → FeatureSetState → VRes) (st : CfwState) (features : FeatureSetState) :
    ComputeFrameWork.run_validate_output_features
        { fg with validate_input_features := v } st features =
      ComputeFrameWork.run_validate_output_features fg st features := by
  unfold ComputeFrameWork.run_validate_output_features
  cases st.data <;> rfl

/-- C10: with no data held, both validation runs return immediately without
consulting the feature group's validators — so no validation error can be
raised, and `run_calculation` on a fresh instance with no data argument is
insensitive to the input validator. -/
theorem C10_no_data_skips_validation :
    ∀ (fg : FeatureGroup) (st : CfwState) (features : FeatureSetState),
      st.data = PyObj.pynone →
      ComputeFrameWork.run_validate_input_features fg st features = Except.ok () ∧
      ComputeFrameWork.run_validate_output_features fg st features = Except.ok () ∧
      (∀ (impl : CfwImpl) (fl : FlightState) (loc : Option String)
          (v : PyObj → FeatureSetState → VRes),
        ComputeFrameWork.run_calculation impl
            { fg with validate_input_features := v } st fl features loc PyObj.pynone =
          ComputeFrameWork.run_calculation impl fg st fl features loc PyObj.pynone) := by
  intro fg st features hd
  have hin : ∀ (fg' : FeatureGroup),
      ComputeFrameWork.run_validate_input_features fg' st features = Except.ok () := by
    intro fg'
    unfold ComputeFrameWork.run_validate_input_features
    rw [hd]
  have hout : ComputeFrameWork.run_validate_output_features fg st features = Except.ok () := by
    unfold ComputeFrameWork.run_validate_output_features
    rw [hd]
  refine ⟨hin fg, hout, ?_⟩
  intro impl fl loc v
  unfold ComputeFrameWork.run_calculation
  rw [if_pos (show (PyObj.pynone = PyObj.pynone) from rfl)]
  dsimp only
  rw [hin { fg with validate_input_features := v }, hin fg]
  simp only [run_validate_output_ignores_input_validator fg v]

/-- Witness for C10: the always-failing input validator raises nothing on an
instance that holds no data. -/
theorem C10_witness :
    ComputeFrameWork.run_validate_input_features exFailFeatureGroup exCfwNoData exFeatureSet =
      Except.ok () :=
  (C10_no_data_skips_validation exFailFeatureGroup exCfwNoData exFeatureSet rfl).1

end Mloda
